import Mathlib

/-!
Verification development for the BeACodeContributor service.

This file shallowly embeds the parts of the repository that the checked
properties are about:

* `services/ai_analyzer.py` — the analysis client (`analyze_issue`,
  `_parse_analysis_response`, `_get_default_analysis`), together with a
  model of the JSON extraction it performs on free-form model output
  (the two `re.search` patterns and `json.loads`);
* `services/github_client.py` — the pagination loop of `get_issues`;
* `services/feishu_client.py` — `_get_access_token`, `send_api_message`
  and `FeishuCardBuilder.build_daily_summary`;
* `main.py` — the project-catalog filter of `search_bigdata_projects`.

Remote calls are modelled by explicit transport arguments of type
`Except Unit α`: `.error ()` stands for a raised exception, `.ok r` for a
returned response. Python `float` values that are merely passed through
are modelled as rationals; machine-level float rounding plays no role in
any embedded code path.
-/

/-- A parsed JSON value, as produced by Python's `json.loads`.
Finite numbers are modelled as rationals; the non-RFC float constants
`NaN`, `Infinity` and `-Infinity`, which CPython accepts by default, get
dedicated constructors (`inf true` is `-Infinity`). Objects keep their
key/value pairs in parse order (Python dict semantics are recovered by a
last-wins lookup). -/
inductive JValue where
  | null : JValue
  | bool : Bool → JValue
  | num : ℚ → JValue
  | nan : JValue
  | inf : Bool → JValue
  | str : String → JValue
  | arr : List JValue → JValue
  | obj : List (String × JValue) → JValue

/-- JSON insignificant whitespace (RFC 8259: space, tab, line feed, carriage return). -/
def isJsonWs (c : Char) : Bool :=
  c = ' ' || c = '\t' || c = '\n' || c = '\r'

/-- Drop leading JSON whitespace. -/
def skipWs : List Char → List Char
  | [] => []
  | c :: cs => if isJsonWs c then skipWs cs else c :: cs

/-- Value of a hexadecimal digit, as accepted in a `\uXXXX` escape. -/
def hexVal (c : Char) : Option Nat :=
  if '0' ≤ c ∧ c ≤ '9' then some (c.toNat - 48)
  else if 'a' ≤ c ∧ c ≤ 'f' then some (c.toNat - 87)
  else if 'A' ≤ c ∧ c ≤ 'F' then some (c.toNat - 55)
  else none

/-- Single-character JSON string escapes. -/
def escChar (e : Char) : Option Char :=
  if e = '"' then some '"'
  else if e = '\\' then some '\\'
  else if e = '/' then some '/'
  else if e = 'b' then some (Char.ofNat 8)
  else if e = 'f' then some (Char.ofNat 12)
  else if e = 'n' then some '\n'
  else if e = 'r' then some '\r'
  else if e = 't' then some '\t'
  else none

/-- Parse the body of a JSON string literal (the opening quote already
consumed), returning the decoded characters and the input past the closing
quote. Bare control characters are rejected, as by `json.loads`. -/
def parseStrAux : Nat → List Char → Option (List Char × List Char)
  | 0, _ => none
  | Nat.succ fuel, cs =>
    match cs with
    | [] => none
    | '"' :: rest => some ([], rest)
    | '\\' :: rest =>
      match rest with
      | [] => none
      | e :: rest₁ =>
        if e = 'u' then
          match rest₁ with
          | a :: b :: c :: d :: rest₂ =>
            match hexVal a, hexVal b, hexVal c, hexVal d with
            | some ha, some hb, some hc, some hd =>
              match parseStrAux fuel rest₂ with
              | some (s, r) => some (Char.ofNat (ha * 4096 + hb * 256 + hc * 16 + hd) :: s, r)
              | none => none
            | _, _, _, _ => none
          | _ => none
        else
          match escChar e with
          | some c =>
            match parseStrAux fuel rest₁ with
            | some (s, r) => some (c :: s, r)
            | none => none
          | none => none
    | c :: rest =>
      if c.toNat < 32 then none
      else
        match parseStrAux fuel rest with
        | some (s, r) => some (c :: s, r)
        | none => none

/-- Split off a maximal run of decimal digits. -/
def takeDigits : List Char → List Char × List Char
  | [] => ([], [])
  | c :: cs =>
    if c.isDigit then
      let p := takeDigits cs
      (c :: p.1, p.2)
    else ([], c :: cs)

/-- Numeric value of a digit run. -/
def digitsVal (ds : List Char) : Nat :=
  ds.foldl (fun a c => a * 10 + (c.toNat - 48)) 0

/-- Parse an optional exponent suffix (the `e`/`E` already consumed),
returning its sign and digit value. -/
def parseExpPart (r : List Char) : Option ((Bool × Nat) × List Char) :=
  let q : Bool × List Char :=
    match r with
    | '+' :: r₂ => (false, r₂)
    | '-' :: r₂ => (true, r₂)
    | _ => (false, r)
  let p := takeDigits q.2
  if p.1.isEmpty then none
  else some ((q.1, digitsVal p.1), p.2)

/-- Parse a JSON number per the RFC 8259 grammar (leading zeros rejected,
a fraction part requires at least one digit). The value
`±(I.F) × 10^(±E)` is assembled as one normalised rational. -/
def parseNumber (cs : List Char) : Option (ℚ × List Char) :=
  let sgn : Bool × List Char :=
    match cs with
    | '-' :: r => (true, r)
    | _ => (false, cs)
  let ip := takeDigits sgn.2
  if ip.1.isEmpty then none
  else if 1 < ip.1.length ∧ ip.1.headD 'x' = '0' then none
  else
    let fracRes : Option ((Nat × Nat) × List Char) :=
      match ip.2 with
      | '.' :: r =>
        let fp := takeDigits r
        if fp.1.isEmpty then none
        else some ((digitsVal fp.1, fp.1.length), fp.2)
      | _ => some ((0, 0), ip.2)
    match fracRes with
    | none => none
    | some ((fv, k), cs₃) =>
      let expRes : Option ((Bool × Nat) × List Char) :=
        match cs₃ with
        | 'e' :: r => parseExpPart r
        | 'E' :: r => parseExpPart r
        | _ => some ((false, 0), cs₃)
      match expRes with
      | none => none
      | some ((eneg, e), cs₄) =>
        let mag : Nat := digitsVal ip.1 * 10 ^ k + fv
        let mant : Int := if sgn.1 then -(mag : Int) else (mag : Int)
        let v : ℚ :=
          if eneg then mkRat mant (10 ^ k * 10 ^ e)
          else mkRat (mant * ((10 ^ e : Nat) : Int)) (10 ^ k)
        some (v, cs₄)

mutual

/-- Recursive-descent parser for one JSON value (leading whitespace allowed),
returning the value and the unconsumed input. -/
def parseValue : Nat → List Char → Option (JValue × List Char)
  | 0, _ => none
  | Nat.succ fuel, cs =>
    match skipWs cs with
    | [] => none
    | '{' :: rest =>
      match skipWs rest with
      | '}' :: rest₂ => some (.obj [], rest₂)
      | _ =>
        match parseMembers fuel rest with
        | some (kvs, rest₂) => some (.obj kvs, rest₂)
        | none => none
    | '[' :: rest =>
      match skipWs rest with
      | ']' :: rest₂ => some (.arr [], rest₂)
      | _ =>
        match parseElems fuel rest with
        | some (vs, rest₂) => some (.arr vs, rest₂)
        | none => none
    | '"' :: rest =>
      match parseStrAux rest.length rest with
      | some (s, rest₂) => some (.str (String.mk s), rest₂)
      | none => none
    | 't' :: rest =>
      if ['r', 'u', 'e'].isPrefixOf rest then some (.bool true, rest.drop 3) else none
    | 'f' :: rest =>
      if ['a', 'l', 's', 'e'].isPrefixOf rest then some (.bool false, rest.drop 4) else none
    | 'n' :: rest =>
      if ['u', 'l', 'l'].isPrefixOf rest then some (.null, rest.drop 3) else none
    | other =>
      match parseNumber other with
      | some (q, rest) => some (.num q, rest)
      | none =>
        if "NaN".toList.isPrefixOf other then some (.nan, other.drop 3)
        else if "Infinity".toList.isPrefixOf other then some (.inf false, other.drop 8)
        else if "-Infinity".toList.isPrefixOf other then some (.inf true, other.drop 9)
        else none

/-- Parse the members of a JSON object (after the opening brace, at least one
member present). -/
def parseMembers : Nat → List Char → Option (List (String × JValue) × List Char)
  | 0, _ => none
  | Nat.succ fuel, cs =>
    match skipWs cs with
    | '"' :: rest =>
      match parseStrAux rest.length rest with
      | some (k, rest₁) =>
        match skipWs rest₁ with
        | ':' :: rest₂ =>
          match parseValue fuel rest₂ with
          | some (v, rest₃) =>
            match skipWs rest₃ with
            | ',' :: rest₄ =>
              match parseMembers fuel rest₄ with
              | some (kvs, r) => some ((String.mk k, v) :: kvs, r)
              | none => none
            | '}' :: rest₄ => some ([(String.mk k, v)], rest₄)
            | _ => none
          | none => none
        | _ => none
      | none => none
    | _ => none

/-- Parse the elements of a JSON array (after the opening bracket, at least
one element present). -/
def parseElems : Nat → List Char → Option (List JValue × List Char)
  | 0, _ => none
  | Nat.succ fuel, cs =>
    match parseValue fuel cs with
    | some (v, rest) =>
      match skipWs rest with
      | ',' :: rest₂ =>
        match parseElems fuel rest₂ with
        | some (vs, r) => some (v :: vs, r)
        | none => none
      | ']' :: rest₂ => some ([v], rest₂)
      | _ => none
    | none => none

end

/-- Model of Python's `json.loads` with its default settings: parse one JSON
document — including the non-RFC constants `NaN`, `Infinity` and
`-Infinity` that CPython accepts by default — allowing surrounding
whitespace and rejecting trailing garbage. -/
def jsonLoads (s : String) : Option JValue :=
  let cs := s.toList
  match parseValue (cs.length + 1) cs with
  | some (v, rest) => if (skipWs rest).isEmpty then some v else none
  | none => none

/-- Characters matched by Python's regex `\s` on the inputs at hand
(space, tab, newline, carriage return, vertical tab, form feed). -/
def pySpace (c : Char) : Bool :=
  c = ' ' || c = '\t' || c = '\n' || c = '\r' || c = Char.ofNat 11 || c = Char.ofNat 12

/-- The literal three-backtick fence. -/
def ticks : List Char := "\x60\x60\x60".toList

/-- The literal opening tag of a fenced JSON block. -/
def fencedTag : List Char := "\x60\x60\x60json".toList

/-- The lazy group of the pattern `\s*(.*?)\s*` followed by a closing fence:
the shortest prefix of the input whose remainder, after whitespace, starts
with three backticks. `none` when no closing fence follows. -/
def lazyGroup : List Char → Option (List Char)
  | [] => none
  | c :: rest =>
    if ticks.isPrefixOf (List.dropWhile pySpace (c :: rest)) then some []
    else
      match lazyGroup rest with
      | some g => some (c :: g)
      | none => none

/-- Leftmost match of the fenced-block search: at each occurrence of the
opening tag, greedily drop whitespace and take the lazy group up to the
closing fence. -/
def fencedSearch : List Char → Option (List Char)
  | [] => none
  | c :: rest =>
    if fencedTag.isPrefixOf (c :: rest) then
      match lazyGroup (List.dropWhile pySpace ((c :: rest).drop 7)) with
      | some g => some g
      | none => fencedSearch rest
    else fencedSearch rest

/-- Model of `re.search` over the pattern matching a fenced ` ```json ... ``` `
block with DOTALL, returning group 1. -/
def fencedExtract (t : String) : Option String :=
  (fencedSearch t.toList).map String.mk

/-- Index of the first occurrence of a character, if any. -/
def firstIdx (c : Char) : List Char → Option Nat
  | [] => none
  | x :: xs =>
    if x = c then some 0
    else
      match firstIdx c xs with
      | some i => some (i + 1)
      | none => none

/-- Index of the last occurrence of a character, if any. -/
def lastIdx (c : Char) (cs : List Char) : Option Nat :=
  match firstIdx c cs.reverse with
  | some j => some (cs.length - 1 - j)
  | none => none

/-- Model of `re.search` over the greedy brace pattern with DOTALL: the
substring from the first opening brace to the last closing brace after it. -/
def braceExtract (t : String) : Option String :=
  let cs := t.toList
  match firstIdx (Char.ofNat 123) cs, lastIdx (Char.ofNat 125) cs with
  | some i, some j =>
    if i < j then some (String.mk ((cs.take (j + 1)).drop i)) else none
  | _, _ => none

/-- The fixed dictionary `_parse_analysis_response` returns when no JSON can
be decoded from the model response. -/
def defaultParseObj : JValue :=
  .obj [("complexity_score", .num (mkRat 1 2)),
        ("difficulty_level", .str "intermediate"),
        ("required_skills", .arr []),
        ("estimated_time", .str "未知"),
        ("solution_approach", .str ""),
        ("technical_breakdown", .obj []),
        ("learning_opportunities", .arr []),
        ("confidence_score", .num (mkRat 1 2))]

/-- Model of `AIAnalyzer._parse_analysis_response`: try a fenced block first,
then the brace pattern, else the whole text; decode with `json.loads` and
fall back to the fixed dictionary on decode failure. -/
def parseAnalysisResponse (t : String) : JValue :=
  let jsonStr := (fencedExtract t).getD ((braceExtract t).getD t)
  (jsonLoads jsonStr).getD defaultParseObj

/-- Python's `value.get(key, default)`: succeeds only on a dict (any other
value raises `AttributeError`); duplicate keys resolve last-wins, as
`json.loads` builds dicts. -/
def jsonGet (v : JValue) (k : String) (d : JValue) : Except Unit JValue :=
  match v with
  | .obj kvs => .ok ((kvs.reverse.lookup k).getD d)
  | _ => .error ()

/-- The issue dictionary handed to `analyze_issue` (the fields the analyzer
reads; `id` is the one it requires). -/
structure Issue where
  id : Int
  title : String
  body : String
  labels : List String
  comments : Nat
deriving DecidableEq

/-- The `IssueAnalysis` dataclass. Apart from `issue_id`, fields hold
whatever JSON values the model supplied (Python performs no validation or
coercion when constructing the dataclass). -/
structure IssueAnalysis where
  issue_id : Int
  complexity_score : JValue
  difficulty_level : JValue
  required_skills : JValue
  estimated_time : JValue
  solution_approach : JValue
  technical_breakdown : JValue
  learning_opportunities : JValue
  confidence_score : JValue

/-- Model of `AIAnalyzer._get_default_analysis`. -/
def getDefaultAnalysis (issue : Issue) : IssueAnalysis :=
  { issue_id := issue.id
    complexity_score := .num (mkRat 1 2)
    difficulty_level := .str "intermediate"
    required_skills := .arr [.str "Git", .str "项目相关语言"]
    estimated_time := .str "1-3天"
    solution_approach := .str "需要先理解项目架构和代码组织"
    technical_breakdown := .obj []
    learning_opportunities := .arr [.str "学习项目代码结构", .str "理解分布式系统概念"]
    confidence_score := .num (mkRat 1 2) }

/-- The `dict.get` reads `analyze_issue` performs on the parsed response to
build the `IssueAnalysis` record (the per-field defaults of lines 78–85 of
`ai_analyzer.py`; note `confidence_score` defaults to 0.8 here). -/
def analyzeIssueFromData (issue : Issue) (data : JValue) :
    Except Unit IssueAnalysis := do
  let cs ← jsonGet data "complexity_score" (.num (mkRat 1 2))
  let dl ← jsonGet data "difficulty_level" (.str "intermediate")
  let rs ← jsonGet data "required_skills" (.arr [])
  let et ← jsonGet data "estimated_time" (.str "未知")
  let sa ← jsonGet data "solution_approach" (.str "")
  let tb ← jsonGet data "technical_breakdown" (.obj [])
  let lo ← jsonGet data "learning_opportunities" (.arr [])
  let conf ← jsonGet data "confidence_score" (.num (mkRat 4 5))
  pure { issue_id := issue.id, complexity_score := cs, difficulty_level := dl,
         required_skills := rs, estimated_time := et, solution_approach := sa,
         technical_breakdown := tb, learning_opportunities := lo,
         confidence_score := conf }

/-- The body of the `try` block of `analyze_issue`: the chat-completion call
(modelled by the `transport` argument), response parsing, and the record
construction from the parsed data. -/
def analyzeIssueBody (issue : Issue) (transport : Except Unit String) :
    Except Unit IssueAnalysis := do
  let text ← transport
  analyzeIssueFromData issue (parseAnalysisResponse text)

/-- `analyze_issue` with its `try`/`except` explicit: any exception from the
body is caught and the fixed default analysis substituted, so the layer
itself never propagates an error. -/
def analyzeIssueTop (issue : Issue) (transport : Except Unit String) :
    Except Unit IssueAnalysis :=
  match analyzeIssueBody issue transport with
  | .ok a => .ok a
  | .error _ => .ok (getDefaultAnalysis issue)

/-- Model of `AIAnalyzer.analyze_issue` as the total function the
`try`/`except` makes it. -/
def analyze_issue (issue : Issue) (transport : Except Unit String) : IssueAnalysis :=
  match analyzeIssueBody issue transport with
  | .ok a => a
  | .error _ => getDefaultAnalysis issue

/-- One raw item of a GitHub issue-listing page: the converted issue payload
plus whether the item carries a `pull_request` key. -/
structure RawItem where
  isPullRequest : Bool
  payload : Issue
deriving DecidableEq

/-- Model of the pagination loop of `GitHubClient.get_issues`. The remote is
modelled by the list of pages it returns for pages 1, 2, …; requesting past
the end raises, which the loop absorbs by breaking with what it has. An
empty page breaks; pull requests are filtered out; a page shorter than
`perPage` (counted before filtering) is the last page consumed. -/
def get_issues : List (List RawItem) → Nat → List Issue
  | [], _ => []
  | d :: rest, perPage =>
    if d.isEmpty then []
    else
      (d.filter (fun it => !it.isPullRequest)).map RawItem.payload ++
        (if d.length < perPage then [] else get_issues rest perPage)

/-- Number of page requests `get_issues` issues against the same remote:
one per loop iteration, stopping after an empty or short page (the final
request against an exhausted remote counts as issued — it raises). -/
def pagesRequested : List (List RawItem) → Nat → Nat
  | [], _ => 1
  | d :: rest, perPage =>
    if d.isEmpty then 1
    else if d.length < perPage then 1
    else 1 + pagesRequested rest perPage

/-- Python's `str.startswith`. -/
def strStartsWith (s p : String) : Bool :=
  p.toList.isPrefixOf s.toList

/-- Body of the token-exchange response of the Feishu auth endpoint
(`result.get` fields; an absent `tenant_access_token` is the empty string,
an absent `expire` defaults to 3600 at the call site). -/
structure TokenResp where
  code : Int
  tenant_access_token : String
  expire : ℚ
deriving DecidableEq

/-- Status line and business code of the messaging-endpoint response. -/
structure PostResp where
  status : Nat
  code : Int
deriving DecidableEq

/-- The mutable fields of `FeishuClient` that `_get_access_token` reads and
writes. The empty string models an absent (`None`) credential or token,
matching Python truthiness. -/
structure FeishuState where
  app_id : String
  app_secret : String
  access_token : String
  token_expire_time : ℚ
deriving DecidableEq

/-- Model of `FeishuClient._get_access_token`. Returns the token (empty
string for Python `None`) and the updated client state; `tokenX` models the
exchange request (`.error ()` for a raised exception). -/
def get_access_token (st : FeishuState) (now : ℚ) (tokenX : Except Unit TokenResp) :
    String × FeishuState :=
  if st.access_token ≠ "" ∧ now < st.token_expire_time then (st.access_token, st)
  else if st.app_id = "" ∨ st.app_secret = "" then ("", st)
  else
    match tokenX with
    | .error _ => ("", st)
    | .ok r =>
      if r.code = 0 then
        (r.tenant_access_token,
         { st with access_token := r.tenant_access_token,
                   token_expire_time := now + r.expire - 300 })
      else ("", st)

/-- The query parameter and body fields of the one POST `send_api_message`
can issue against the messaging endpoint. -/
structure ApiRequest where
  receive_id_type : String
  receive_id : String
  msg_type : String
deriving DecidableEq

/-- Model of `FeishuClient.send_api_message`: obtain a token (returning
`false` with no POST when none), override the caller's `receive_id_type`
from the `ou_`/`oc_` prefix of `receive_id`, then POST. The second component
records the POST issued, if any; `postX` models its outcome. -/
def send_api_message (st : FeishuState) (now : ℚ) (tokenX : Except Unit TokenResp)
    (postX : Except Unit PostResp) (receive_id msg_type receive_id_type : String) :
    Bool × Option ApiRequest × FeishuState :=
  let tok := get_access_token st now tokenX
  if tok.1 = "" then (false, none, tok.2)
  else
    let rt :=
      if strStartsWith receive_id "ou_" then "open_id"
      else if strStartsWith receive_id "oc_" then "chat_id"
      else receive_id_type
    let req : ApiRequest := ⟨rt, receive_id, msg_type⟩
    match postX with
    | .error _ => (false, some req, tok.2)
    | .ok resp =>
      if resp.status ≠ 200 then (false, some req, tok.2)
      else if resp.code = 0 then (true, some req, tok.2)
      else (false, some req, tok.2)

/-- One entry of the static project catalog, as read by
`search_bigdata_projects` (`beginner_friendly` may be absent). -/
structure Project where
  name : String
  category : String
  beginner_friendly : Option Bool
deriving DecidableEq

/-- Python's `str.lower` (per character). -/
def strToLower (s : String) : String :=
  String.mk (s.toList.map Char.toLower)

/-- Python's substring containment `needle in hay`. -/
def strContainsSub (hay needle : String) : Bool :=
  (List.range (hay.toList.length + 1)).any
    (fun i => needle.toList.isPrefixOf (hay.toList.drop i))

/-- The keyword filter of `search_bigdata_projects`: an empty keyword list is
falsy, so every project matches; otherwise some keyword must occur
case-insensitively in the project name or category. -/
def matches_keyword (keywords : List String) (p : Project) : Bool :=
  if keywords.isEmpty then true
  else keywords.any (fun k =>
    strContainsSub (strToLower p.name) (strToLower k) ||
    strContainsSub (strToLower p.category) (strToLower k))

/-- The experience-level filter of `search_bigdata_projects`:
`project.get` defaults the flag to `False` in the beginner arm and to `True`
in the advanced arm. -/
def matches_experience (lvl : String) (p : Project) : Bool :=
  (lvl == "beginner" && p.beginner_friendly.getD false) ||
  lvl == "intermediate" ||
  (lvl == "advanced" && !(p.beginner_friendly.getD true))

/-- The `filtered_projects` list built by `search_bigdata_projects`. -/
def filtered_projects (keywords : List String) (lvl : String)
    (catalog : List Project) : List Project :=
  catalog.filter (fun p => matches_keyword keywords p && matches_experience lvl p)

/-- The card elements `build_daily_summary` emits (text block, divider,
footnote). -/
inductive CardElem where
  | textDiv : String → CardElem
  | hr : CardElem
  | note : String → CardElem

/-- A monitored-project reference as rendered into the summary header. -/
structure ProjectRef where
  name : String
  owner : String
  repo : String

/-- One recommendation dictionary as consumed by `build_daily_summary`. -/
structure Recommendation where
  title : String
  url : String
  difficulty : String
  estimated_time : String
  required_skills : List String
  solution_approach : String
  technical_breakdown : String

/-- The markdown body of the i-th recommendation block. -/
def itemMd (i : Nat) (r : Recommendation) : String :=
  "**" ++ toString (i + 1) ++ ". [" ++ r.title ++ "](" ++ r.url ++ ")**\n" ++
  "🔸 **难度**: " ++ r.difficulty ++ " | ⏳ **预计耗时**: " ++ r.estimated_time ++ "\n" ++
  "🎯 **所需技能**: " ++ String.intercalate "、" r.required_skills ++ "\n" ++
  "💡 **解决方案**: " ++ r.solution_approach ++ "\n" ++
  "🛠 **技术拆解**: " ++ r.technical_breakdown

/-- One line of the monitored-project list. -/
def projectLine (p : ProjectRef) : String :=
  "• " ++ p.name ++ " (" ++ p.owner ++ "/" ++ p.repo ++ ")"

/-- Model of `FeishuCardBuilder.build_daily_summary`, as its ordered element
list (config and header are fixed). The loop renders the first five
recommendations; its divider condition compares the index against
`len(recommendations[:3]) - 1`, exactly as the source does. The timestamp is
passed in as `now`. -/
def build_daily_summary (projects : List ProjectRef) (issues_found : Nat)
    (recommendations : List Recommendation) (now : String) : List CardElem :=
  let projectList := String.intercalate "\n" (projects.map projectLine)
  let head : CardElem := .textDiv
    ("**监控项目**:\n" ++ projectList ++ "\n\n**发现Issue总数**: " ++
     toString issues_found ++ " | **推荐Issue数**: " ++ toString recommendations.length)
  let items := ((recommendations.take 5).enum.map (fun pr =>
    CardElem.textDiv (itemMd pr.1 pr.2) ::
      (if pr.1 + 1 < min recommendations.length 3 then [CardElem.hr] else []))).flatten
  [head, .hr] ++ items ++ [.hr, .note ("报告时间: " ++ now)]

/-- Whether two summary text blocks appear adjacently, with no divider
between them. -/
def hasAdjacentTextDivs : List CardElem → Bool
  | CardElem.textDiv _ :: CardElem.textDiv _ :: _ => true
  | _ :: rest => hasAdjacentTextDivs rest
  | [] => false

/-- A score field holds a JSON number in the unit interval. -/
def jscoreInUnit : JValue → Bool
  | .num q => decide (0 ≤ q) && decide (q ≤ 1)
  | _ => false

/-- A difficulty field holds one of the three enumerated tier strings. -/
def jdiffValid : JValue → Bool
  | .str s => s == "beginner" || s == "intermediate" || s == "advanced"
  | _ => false

/-- The data-model invariant claimed for `IssueAnalysis` records: both scores
in the unit interval, difficulty among the three tiers. -/
def analysisInvariant (a : IssueAnalysis) : Bool :=
  jscoreInUnit a.complexity_score && jscoreInUnit a.confidence_score &&
    jdiffValid a.difficulty_level

/-- A concrete issue dictionary used to instantiate the theorems below. -/
def sampleIssue : Issue := ⟨42, "fix the docs", "body", ["good-first-issue"], 0⟩

/-- The model response of the fenced-block test case: a ` ```json ` block
specifying only `complexity_score` 0.9 and `difficulty_level` advanced. -/
def fencedResponse : String :=
  "\x60\x60\x60json\n\x7b\"complexity_score\":0.9,\"difficulty_level\":\"advanced\"\x7d\n\x60\x60\x60"

/-- A model response whose fenced JSON supplies a complexity score outside
the unit interval and a difficulty outside the enumeration. -/
def wildResponse : String :=
  "\x60\x60\x60json\n\x7b\"complexity_score\": 2.0, \"difficulty_level\": \"expert\"\x7d\n\x60\x60\x60"

/-- Helper: when neither regex matches and the whole text fails to decode,
`_parse_analysis_response` returns its fixed dictionary. -/
theorem parseAnalysisResponse_fallback (t : String)
    (hf : fencedExtract t = none) (hb : braceExtract t = none)
    (hj : jsonLoads t = none) :
    parseAnalysisResponse t = defaultParseObj := by
  unfold parseAnalysisResponse
  simp only [hf, hb, hj, Option.getD_none]

/-- Helper: the `IssueAnalysis` produced from the fixed parse-failure
dictionary (shared by several theorems below). -/
theorem analyze_issue_parse_fallback (issue : Issue) (t : String)
    (hf : fencedExtract t = none) (hb : braceExtract t = none)
    (hj : jsonLoads t = none) :
    analyze_issue issue (Except.ok t) =
      { issue_id := issue.id, complexity_score := .num (mkRat 1 2),
        difficulty_level := .str "intermediate", required_skills := .arr [],
        estimated_time := .str "未知", solution_approach := .str "",
        technical_breakdown := .obj [], learning_opportunities := .arr [],
        confidence_score := .num (mkRat 1 2) } := by
  have hbody : analyzeIssueBody issue (Except.ok t) =
      Except.ok
        { issue_id := issue.id, complexity_score := .num (mkRat 1 2),
          difficulty_level := .str "intermediate", required_skills := .arr [],
          estimated_time := .str "未知", solution_approach := .str "",
          technical_breakdown := .obj [], learning_opportunities := .arr [],
          confidence_score := .num (mkRat 1 2) } := by
    have hstep : analyzeIssueBody issue (Except.ok t) =
        analyzeIssueFromData issue (parseAnalysisResponse t) := rfl
    rw [hstep, parseAnalysisResponse_fallback t hf hb hj]
    rfl
  unfold analyze_issue
  rw [hbody]

/-- Claim C1: a model response with no extractable JSON (no fenced block, no
brace-delimited substring, and not itself valid JSON) makes `analyze_issue`
return exactly the fixed default analysis values: complexity 0.5, difficulty
"intermediate", confidence 0.5, and empty skills/breakdown/opportunities. -/
theorem analyze_issue_no_extractable_json (issue : Issue) (t : String)
    (hf : fencedExtract t = none) (hb : braceExtract t = none)
    (hj : jsonLoads t = none) :
    (analyze_issue issue (Except.ok t)).complexity_score = .num (mkRat 1 2) ∧
    (analyze_issue issue (Except.ok t)).difficulty_level = .str "intermediate" ∧
    (analyze_issue issue (Except.ok t)).confidence_score = .num (mkRat 1 2) ∧
    (analyze_issue issue (Except.ok t)).required_skills = .arr [] ∧
    (analyze_issue issue (Except.ok t)).technical_breakdown = .obj [] ∧
    (analyze_issue issue (Except.ok t)).learning_opportunities = .arr [] := by
  rw [analyze_issue_parse_fallback issue t hf hb hj]
  exact ⟨rfl, rfl, rfl, rfl, rfl, rfl⟩

/-- Witness for C1 at the concrete response "no json here". -/
theorem analyze_issue_no_extractable_json_witness :
    fencedExtract "no json here" = none ∧ braceExtract "no json here" = none ∧
    jsonLoads "no json here" = none ∧
    ((analyze_issue sampleIssue (Except.ok "no json here")).complexity_score = .num (mkRat 1 2) ∧
     (analyze_issue sampleIssue (Except.ok "no json here")).difficulty_level = .str "intermediate" ∧
     (analyze_issue sampleIssue (Except.ok "no json here")).confidence_score = .num (mkRat 1 2) ∧
     (analyze_issue sampleIssue (Except.ok "no json here")).required_skills = .arr [] ∧
     (analyze_issue sampleIssue (Except.ok "no json here")).technical_breakdown = .obj [] ∧
     (analyze_issue sampleIssue (Except.ok "no json here")).learning_opportunities = .arr []) :=
  ⟨rfl, rfl, rfl,
   analyze_issue_no_extractable_json sampleIssue "no json here" rfl rfl rfl⟩

/-- Claim C2 (counterexample): on the fenced response specifying only
complexity 0.9 and difficulty "advanced", the unspecified `confidence_score`
is filled with 0.8 — the `analysis_data.get` default of `analyze_issue` —
not the documented 0.5. -/
theorem analyze_issue_fenced_confidence_not_half :
    (analyze_issue sampleIssue (Except.ok fencedResponse)).confidence_score ≠
      JValue.num (mkRat 1 2) := by
  intro h
  have h₂ : JValue.num (mkRat 4 5) = JValue.num (mkRat 1 2) := h
  injection h₂ with h₃
  norm_num at h₃

/-- Claim C2 (amended): the fenced response yields complexity 0.9 and
difficulty "advanced", with every unspecified field at its `analyze_issue`
default — empty skills/breakdown/opportunities, but confidence 0.8. -/
theorem analyze_issue_fenced_extracts_fields :
    analyze_issue sampleIssue (Except.ok fencedResponse) =
      { issue_id := 42, complexity_score := .num (mkRat 9 10),
        difficulty_level := .str "advanced", required_skills := .arr [],
        estimated_time := .str "未知", solution_approach := .str "",
        technical_breakdown := .obj [], learning_opportunities := .arr [],
        confidence_score := .num (mkRat 4 5) } := rfl

/-- Claim C3: the analysis layer never propagates an exception — for every
issue and every transport behaviour, the `try`/`except` yields a defined
`IssueAnalysis`, and when the body fails the result is the fixed default
record. -/
theorem analyze_issue_never_raises (issue : Issue) (transport : Except Unit String) :
    ∃ a : IssueAnalysis, analyzeIssueTop issue transport = Except.ok a ∧
      (analyzeIssueBody issue transport = Except.error () →
        a = getDefaultAnalysis issue) := by
  cases hbody : analyzeIssueBody issue transport with
  | ok a =>
    refine ⟨a, ?_, ?_⟩
    · unfold analyzeIssueTop
      rw [hbody]
    · intro hc
      exact Except.noConfusion hc
  | error e =>
    refine ⟨getDefaultAnalysis issue, ?_, fun _ => rfl⟩
    unfold analyzeIssueTop
    rw [hbody]

/-- Witness for C3 at a concrete issue and a raising transport. -/
theorem analyze_issue_never_raises_witness :
    ∃ a : IssueAnalysis, analyzeIssueTop sampleIssue (Except.error ()) = Except.ok a ∧
      (analyzeIssueBody sampleIssue (Except.error ()) = Except.error () →
        a = getDefaultAnalysis sampleIssue) :=
  analyze_issue_never_raises sampleIssue (Except.error ())

/-- Claim C4 (counterexample): a fenced response carrying complexity 2.0 and
difficulty "expert" is passed through unvalidated, so the produced record
violates the claimed invariant. -/
theorem analyze_issue_invariant_violated :
    analysisInvariant (analyze_issue sampleIssue (Except.ok wildResponse)) = false := rfl

/-- Claim C4 (amended): the invariant holds for records built from the
default values — on transport failure, or on a response from which no JSON
can be extracted; model-supplied values are passed through without
range or enumeration validation. -/
theorem analyze_issue_invariant_on_defaults (issue : Issue)
    (transport : Except Unit String)
    (h : transport = Except.error () ∨ ∃ t, transport = Except.ok t ∧
      fencedExtract t = none ∧ braceExtract t = none ∧ jsonLoads t = none) :
    analysisInvariant (analyze_issue issue transport) = true := by
  rcases h with h | ⟨t, ht, hf, hb, hj⟩
  · subst h
    rfl
  · subst ht
    rw [analyze_issue_parse_fallback issue t hf hb hj]
    rfl

/-- Witness for C4 (amended) at a raising transport. -/
theorem analyze_issue_invariant_on_defaults_witness :
    analysisInvariant (analyze_issue sampleIssue (Except.error ())) = true :=
  analyze_issue_invariant_on_defaults sampleIssue (Except.error ()) (Or.inl rfl)

/-- Claim C5: `get_issues` stops paginating exactly at the first page that
returns fewer raw items than the requested page size — every earlier page is
full and non-empty, and no request is issued for any later page, so the
total number of requests is the short page's position. -/
theorem get_issues_stops_after_short_page (pre : List (List RawItem))
    (d : List RawItem) (rest : List (List RawItem)) (perPage : Nat)
    (hfull : ∀ p ∈ pre, p.isEmpty = false ∧ perPage ≤ p.length)
    (hshort : d.length < perPage) :
    pagesRequested (pre ++ d :: rest) perPage = pre.length + 1 := by
  induction pre with
  | nil =>
    by_cases he : d.isEmpty <;> simp [pagesRequested, he, hshort]
  | cons p ps ih =>
    obtain ⟨hne, hlen⟩ := hfull p (List.mem_cons_self p ps)
    have hnlt : ¬p.length < perPage := Nat.not_lt.mpr hlen
    have ihr := ih (fun q hq => hfull q (List.mem_cons_of_mem p hq))
    simp [pagesRequested, hne, hnlt, ihr]
    omega

/-- A non-pull-request raw item used to instantiate C5. -/
def rawIssueItem : RawItem := ⟨false, ⟨1, "a", "", [], 0⟩⟩

/-- Witness for C5: one full page of size 2 followed by a short page — two
requests in total. -/
theorem get_issues_stops_after_short_page_witness :
    pagesRequested [[rawIssueItem, rawIssueItem], [rawIssueItem]] 2 = 2 :=
  get_issues_stops_after_short_page [[rawIssueItem, rawIssueItem]] [rawIssueItem] [] 2
    (by decide) (by decide)

/-- Helper: the POST issued by `send_api_message` is `none` exactly when no
token is available, and otherwise carries the prefix-derived
`receive_id_type`. -/
theorem send_api_message_request_eq (st : FeishuState) (now : ℚ)
    (tokenX : Except Unit TokenResp) (postX : Except Unit PostResp)
    (receive_id msg_type receive_id_type : String) :
    (send_api_message st now tokenX postX receive_id msg_type receive_id_type).2.1 =
      if (get_access_token st now tokenX).1 = "" then none
      else some ⟨(if strStartsWith receive_id "ou_" then "open_id"
                  else if strStartsWith receive_id "oc_" then "chat_id"
                  else receive_id_type), receive_id, msg_type⟩ := by
  unfold send_api_message
  by_cases htok : (get_access_token st now tokenX).1 = ""
  · simp [htok]
  · rcases postX with _ | resp
    · simp [htok]
    · by_cases h1 : resp.status = 200
      · by_cases h2 : resp.code = 0 <;> simp [htok, h1, h2]
      · simp [htok, h1]

/-- Helper: no recipient id starts with both `ou_` and `oc_`. -/
theorem strStartsWith_ou_oc_exclusive (s : String) :
    ¬(strStartsWith s "ou_" = true ∧ strStartsWith s "oc_" = true) := by
  rintro ⟨h1, h2⟩
  rw [strStartsWith, List.isPrefixOf_iff_prefix] at h1 h2
  have e1 : "ou_".toList = ['o', 'u', '_'] := rfl
  have e2 : "oc_".toList = ['o', 'c', '_'] := rfl
  rw [e1] at h1
  rw [e2] at h2
  rcases h1 with ⟨t1, ht1⟩
  rw [← ht1] at h2
  simp [List.cons_prefix_cons] at h2

/-- Claim C6: whenever `send_api_message` issues its POST, a recipient id
beginning `ou_` is sent with `receive_id_type` "open_id" and one beginning
`oc_` with "chat_id", regardless of the caller-supplied
`receive_id_type` argument. -/
theorem send_api_message_prefix_overrides_type (st : FeishuState) (now : ℚ)
    (tokenX : Except Unit TokenResp) (postX : Except Unit PostResp)
    (receive_id msg_type receive_id_type : String) (req : ApiRequest)
    (hreq : (send_api_message st now tokenX postX
        receive_id msg_type receive_id_type).2.1 = some req) :
    (strStartsWith receive_id "ou_" = true → req.receive_id_type = "open_id") ∧
    (strStartsWith receive_id "oc_" = true → req.receive_id_type = "chat_id") := by
  rw [send_api_message_request_eq] at hreq
  by_cases htok : (get_access_token st now tokenX).1 = ""
  · rw [if_pos htok] at hreq
    exact Option.noConfusion hreq
  · rw [if_neg htok] at hreq
    injection hreq with hreq
    subst hreq
    constructor
    · intro hou
      simp [hou]
    · intro hoc
      have hnou : ¬strStartsWith receive_id "ou_" = true := fun hou =>
        strStartsWith_ou_oc_exclusive receive_id ⟨hou, hoc⟩
      simp [hnou, hoc]

/-- A client state with credentials but no cached token. -/
def freshFeishuState : FeishuState := ⟨"app", "secret", "", 0⟩

/-- A successful token exchange. -/
def tokenExchangeOk : Except Unit TokenResp := .ok ⟨0, "tok", 3600⟩

/-- A successful message POST. -/
def messagePostOk : Except Unit PostResp := .ok ⟨200, 0⟩

/-- Witness for C6: an `ou_` recipient with an explicit "chat_id" override is
still posted as "open_id". -/
theorem send_api_message_prefix_overrides_type_witness :
    (send_api_message freshFeishuState 0 tokenExchangeOk messagePostOk
        "ou_user" "interactive" "chat_id").2.1 =
      some ⟨"open_id", "ou_user", "interactive"⟩ ∧
    (⟨"open_id", "ou_user", "interactive"⟩ : ApiRequest).receive_id_type = "open_id" :=
  ⟨rfl,
   (send_api_message_prefix_overrides_type freshFeishuState 0 tokenExchangeOk
      messagePostOk "ou_user" "interactive" "chat_id"
      ⟨"open_id", "ou_user", "interactive"⟩ rfl).1 rfl⟩

/-- Claim C10: when no unexpired cached token exists and the exchange cannot
produce one (missing credentials, raised request, or non-zero business
code), `send_api_message` returns `False` without issuing any POST, leaving
the client state unchanged. -/
theorem send_api_message_no_token_no_post (st : FeishuState) (now : ℚ)
    (tokenX : Except Unit TokenResp) (postX : Except Unit PostResp)
    (receive_id msg_type receive_id_type : String)
    (hcache : st.access_token = "" ∨ st.token_expire_time ≤ now)
    (hfail : st.app_id = "" ∨ st.app_secret = "" ∨ tokenX = .error () ∨
      ∃ r, tokenX = .ok r ∧ r.code ≠ 0) :
    send_api_message st now tokenX postX receive_id msg_type receive_id_type =
      (false, none, st) := by
  have hnc : ¬(st.access_token ≠ "" ∧ now < st.token_expire_time) := by
    rcases hcache with h | h
    · exact fun hh => hh.1 h
    · exact fun hh => absurd hh.2 (not_lt.mpr h)
  have htok : get_access_token st now tokenX = ("", st) := by
    unfold get_access_token
    rw [if_neg hnc]
    rcases hfail with h | h | h | ⟨r, hr, hcode⟩
    · rw [if_pos (Or.inl h)]
    · rw [if_pos (Or.inr h)]
    · by_cases hid : st.app_id = "" ∨ st.app_secret = ""
      · rw [if_pos hid]
      · rw [if_neg hid, h]
    · by_cases hid : st.app_id = "" ∨ st.app_secret = ""
      · rw [if_pos hid]
      · rw [if_neg hid, hr]
        simp [hcode]
  unfold send_api_message
  simp [htok]

/-- Witness for C10: missing credentials, failing exchange, no cached token —
the call reports failure and issues no POST. -/
theorem send_api_message_no_token_no_post_witness :
    send_api_message ⟨"", "", "", 0⟩ 0 (Except.error ()) messagePostOk
        "ou_user" "interactive" "open_id" =
      (false, none, ⟨"", "", "", 0⟩) :=
  send_api_message_no_token_no_post ⟨"", "", "", 0⟩ 0 (Except.error ()) messagePostOk
    "ou_user" "interactive" "open_id" (Or.inl rfl) (Or.inl rfl)

/-- Claim C7: a catalogued project whose `beginner_friendly` flag is `false`
and which passes the keyword filter is excluded from `filtered_projects`
when the requested experience level is "beginner" and included when it is
"advanced". -/
theorem catalog_filter_beginner_flag_false (catalog : List Project)
    (keywords : List String) (p : Project)
    (hbf : p.beginner_friendly = some false)
    (hkw : matches_keyword keywords p = true)
    (hmem : p ∈ catalog) :
    p ∉ filtered_projects keywords "beginner" catalog ∧
    p ∈ filtered_projects keywords "advanced" catalog := by
  have hexpB : matches_experience "beginner" p = false := by
    unfold matches_experience
    rw [hbf]
    rfl
  have hexpA : matches_experience "advanced" p = true := by
    unfold matches_experience
    rw [hbf]
    rfl
  constructor
  · intro hin
    rw [filtered_projects, List.mem_filter] at hin
    rw [hexpB] at hin
    simp at hin
  · rw [filtered_projects, List.mem_filter]
    exact ⟨hmem, by rw [hkw, hexpA]; rfl⟩

/-- A catalogued project with `beginner_friendly = false`. -/
def advancedProject : Project := ⟨"flink", "streaming", some false⟩

/-- Witness for C7 on a one-project catalog with no keywords. -/
theorem catalog_filter_beginner_flag_false_witness :
    advancedProject ∉ filtered_projects [] "beginner" [advancedProject] ∧
    advancedProject ∈ filtered_projects [] "advanced" [advancedProject] :=
  catalog_filter_beginner_flag_false [advancedProject] [] advancedProject
    rfl rfl (List.mem_singleton.mpr rfl)

/-- Claim C9: with an empty keyword list every catalogued project passes the
keyword filter, so membership in `filtered_projects` is decided by the
experience-level match alone. -/
theorem empty_keywords_experience_decides (catalog : List Project)
    (lvl : String) (p : Project) (hmem : p ∈ catalog) :
    matches_keyword [] p = true ∧
    (p ∈ filtered_projects [] lvl catalog ↔ matches_experience lvl p = true) := by
  refine ⟨rfl, ?_⟩
  rw [filtered_projects, List.mem_filter]
  constructor
  · intro h
    have hb := h.2
    rw [show matches_keyword [] p = true from rfl] at hb
    simpa using hb
  · intro h
    refine ⟨hmem, ?_⟩
    rw [show matches_keyword [] p = true from rfl, h]
    rfl

/-- Witness for C9: a project with the flag absent is kept for "intermediate"
exactly as its experience match dictates. -/
theorem empty_keywords_experience_decides_witness :
    matches_keyword [] advancedProject = true ∧
    (advancedProject ∈ filtered_projects [] "intermediate" [advancedProject] ↔
      matches_experience "intermediate" advancedProject = true) :=
  empty_keywords_experience_decides [advancedProject] "intermediate" advancedProject
    (List.mem_singleton.mpr rfl)

/-- The project list used to instantiate the daily-summary card. -/
def sampleProjectRefs : List ProjectRef := [⟨"druid", "apache", "druid"⟩]

/-- A numbered sample recommendation. -/
def sampleRecommendation (n : Nat) : Recommendation :=
  ⟨"issue " ++ toString n, "https://example.com/" ++ toString n, "beginner",
   "1-2天", ["Git"], "阅读相关模块代码", "修改文档文件"⟩

/-- Four recommendations — more than three, at most five. -/
def fourRecommendations : List Recommendation :=
  [sampleRecommendation 1, sampleRecommendation 2,
   sampleRecommendation 3, sampleRecommendation 4]

/-- Claim C8 (code-bug evidence): with four recommendations the rendered
card contains two adjacent recommendation text blocks with no divider
between them — the loop renders `recommendations[:5]` but its divider
condition compares against `len(recommendations[:3]) - 1`, contradicting
the code's own comment that a divider follows every non-final summary. -/
theorem build_daily_summary_adjacent_text_blocks :
    hasAdjacentTextDivs
      (build_daily_summary sampleProjectRefs 7 fourRecommendations
        "2026-10-12 08:00:00") = true := rfl
